import Mathlib

/-!
Shallow embedding of `src/app.py`: a Flask + SQLite public-notice publishing
backend (categories, posts with a publish flag, contact messages, an admin
session gate, substring search, and sitemap/robots artifacts).

Tables become lists of records in rowid order; SQL `WHERE` clauses become
`List.filter`, `ORDER BY id DESC` becomes an insertion sort by descending id,
`LIMIT n` becomes `List.take n`, and `fetchone` becomes `List.find?`.
Python string operations (`strip`, `lower`, `rstrip`) and SQLite `LIKE`
(ASCII-case-insensitive, `%`/`_` wildcards) are modelled explicitly.
-/

namespace App

/-- A row of the `categories` table (`id` is the INTEGER PRIMARY KEY). -/
structure Category where
  id : Nat
  name : String
  slug : String
deriving DecidableEq, Repr

/-- A row of the `posts` table; `is_published` models the INTEGER NOT NULL
DEFAULT 1 flag, which the application only ever writes as 0 or 1. -/
structure Post where
  id : Nat
  title : String
  category_slug : String
  summary : String
  content : String
  source_url : Option String
  created_at : String
  is_published : Bool
deriving DecidableEq, Repr

/-- The database state read and written by the routes: the `categories` and
`posts` tables, rows listed in rowid order. -/
structure Store where
  categories : List Category
  posts : List Post
deriving DecidableEq, Repr

/-- The Flask session, reduced to the only key the app uses:
`session.get("admin")` (absent reads as `false`; `session["admin"] = True`
sets it). -/
structure Session where
  admin : Bool
deriving DecidableEq, Repr

/-- A `flash(message, category)` call. -/
structure Flash where
  message : String
  category : String
deriving DecidableEq, Repr

/-- The redirect responses the admin routes produce: `redirect(url_for(...))`
to a fixed path, or the guard's `redirect(url_for("admin_login", next=path))`. -/
inductive Response where
  | redirectTo (path : String)
  | redirectLogin (next : String)
deriving DecidableEq, Repr

/-- Result of a guarded read-only admin page: the rendered data, the guard's
login redirect, or `abort(404)`. -/
inductive PageResult (α : Type) where
  | ok (val : α)
  | redirectLogin (next : String)
  | notFound
deriving DecidableEq, Repr

/-- The characters Python `str.strip()` removes. -/
def pyIsSpace (c : Char) : Bool :=
  c == ' ' || c == '\t' || c == '\n' || c == '\r' || c == '\x0b' || c == '\x0c'

/-- Python `s.strip()`: drop whitespace from both ends. -/
def pyStrip (s : String) : String :=
  ⟨((s.data.dropWhile pyIsSpace).reverse.dropWhile pyIsSpace).reverse⟩

/-- Python `s.rstrip(c)`: drop trailing occurrences of `c`. -/
def pyRstrip (c : Char) (s : String) : String :=
  ⟨(s.data.reverse.dropWhile (· == c)).reverse⟩

/-- Python `s.lower()` on the ASCII range (slugs are ASCII). -/
def pyLower (s : String) : String :=
  ⟨s.data.map Char.toLower⟩

/-- SQLite `LIKE` pattern matching: `%` matches any sequence, `_` any single
character, and plain characters compare ASCII-case-insensitively (SQLite's
default collation for `LIKE`). -/
def likeMatch : List Char → List Char → Bool
  | [], s => s.isEmpty
  | '%' :: ps, s => s.tails.any fun t => likeMatch ps t
  | '_' :: _, [] => false
  | '_' :: ps, _ :: s => likeMatch ps s
  | _ :: _, [] => false
  | p :: ps, c :: s => (p.toLower == c.toLower) && likeMatch ps s

/-- String-level SQLite `LIKE`: `likeStr pat s` is `s LIKE pat`. -/
def likeStr (pat s : String) : Bool :=
  likeMatch pat.data s.data

/-- Decimal digits of `n` (most significant first), with a fuel argument so the
definition is structural and kernel-computable; `fuel > n` is always enough. -/
def decDigitsAux : Nat → Nat → List Char
  | 0, _ => []
  | fuel + 1, n =>
    if n < 10 then [Nat.digitChar n]
    else decDigitsAux fuel (n / 10) ++ [Nat.digitChar (n % 10)]

/-- Python `str(n)` for a nonnegative integer: its decimal representation. -/
def strOfNat (n : Nat) : String :=
  ⟨decDigitsAux (n + 1) n⟩

/-- Ordering used for `ORDER BY id DESC` on posts. -/
def byIdDesc (a b : Post) : Prop :=
  b.id ≤ a.id

instance : DecidableRel byIdDesc := fun a b => inferInstanceAs (Decidable (b.id ≤ a.id))

instance : IsTotal Post byIdDesc :=
  ⟨fun a b => (Nat.le_total b.id a.id).imp id id⟩

instance : IsTrans Post byIdDesc :=
  ⟨fun _ _ _ hab hbc => Nat.le_trans hbc hab⟩

/-- `ORDER BY id DESC` over a result set. -/
def sortByIdDesc (ps : List Post) : List Post :=
  List.insertionSort byIdDesc ps

/-- `ORDER BY id` over the categories table. -/
def sortCatsById (cs : List Category) : List Category :=
  List.insertionSort (fun a b => a.id ≤ b.id) cs

/-- The `latest_for(slug, limit)` helper inside `home`:
`SELECT ... FROM posts WHERE category_slug=? AND is_published=1 ORDER BY id DESC LIMIT ?`. -/
def latest_for (s : Store) (slug : String) (limit : Nat) : List Post :=
  (sortByIdDesc (s.posts.filter fun p => p.category_slug == slug && p.is_published)).take limit

/-- The data rendered by `GET /` (`home`). -/
structure HomePage where
  cats : List Category
  jobs : List Post
  results : List Post
  schemes : List Post
  examcutoffs : List Post
  current_affairs : List Post
  latest : List Post
deriving DecidableEq, Repr

/-- `GET /`: the home aggregation — five per-category sections with fixed caps
plus a ten-item cross-category latest feed, all `is_published=1`. -/
def home (s : Store) : HomePage :=
  { cats := sortCatsById s.categories
    jobs := latest_for s "job" 8
    results := latest_for s "result" 6
    schemes := latest_for s "scheme" 6
    examcutoffs := latest_for s "examcutoff" 6
    current_affairs := latest_for s "currentaffairs" 8
    latest := (sortByIdDesc (s.posts.filter (·.is_published))).take 10 }

/-- `GET /category/<slug>`: `none` is `abort(404)` for an unknown slug;
otherwise the category row plus its published posts, newest first. -/
def category (s : Store) (slug : String) : Option (Category × List Post) :=
  match s.categories.find? (fun c => c.slug == slug) with
  | none => none
  | some cat =>
    some (cat, sortByIdDesc (s.posts.filter fun p => p.category_slug == slug && p.is_published))

/-- `GET /post/<int:post_id>`: `SELECT * FROM posts WHERE id=? AND is_published=1`
(`fetchone`); `none` is `abort(404)`. -/
def post (s : Store) (post_id : Nat) : Option (Post × Option Category) :=
  match s.posts.find? (fun p => p.id == post_id && p.is_published) with
  | none => none
  | some p => some (p, s.categories.find? (fun c => c.slug == p.category_slug))

/-- `GET /search?q=`: empty or whitespace-only query short-circuits to `[]`;
otherwise published posts whose title, summary or content is `LIKE %q%`,
newest first, uncapped. -/
def search (s : Store) (qRaw : String) : List Post :=
  let q := pyStrip qRaw
  if q == "" then []
  else
    let patt := "%" ++ q ++ "%"
    sortByIdDesc (s.posts.filter fun p =>
      p.is_published &&
        (likeStr patt p.title || likeStr patt p.summary || likeStr patt p.content))

/-- `GET /robots.txt`: the emitted policy text, as a function of the inbound
request's `request.host_url` (the f-string with `base = host_url.rstrip("/")`). -/
def robots (host_url : String) : String :=
  let base := pyRstrip '/' host_url
  "User-agent: *\nAllow: /\n\nSitemap: " ++ base ++ "/sitemap.xml\n"

/-- `GET /sitemap.xml`, the `urls` list: the site root, one URL per category
slug, then one URL per published post id, all qualified by
`request.host_url.rstrip("/")`. -/
def sitemap_urls (s : Store) (host_url : String) : List String :=
  let base_url := pyRstrip '/' host_url
  [base_url ++ "/"]
    ++ (s.categories.map fun c => base_url ++ "/category/" ++ c.slug)
    ++ ((s.posts.filter (·.is_published)).map fun p => base_url ++ "/post/" ++ strOfNat p.id)

/-- `GET /sitemap.xml`, the `xml` line list joined by the response
(header, `urlset` open, three lines per url entry, `urlset` close). -/
def sitemap_xml (s : Store) (host_url : String) : List String :=
  ["<?xml version=\"1.0\" encoding=\"UTF-8\"?>",
   "<urlset xmlns=\"http://www.sitemaps.org/schemas/sitemap/0.9\">"]
    ++ ((sitemap_urls s host_url).flatMap fun url =>
          ["  <url>", "    <loc>" ++ url ++ "</loc>", "  </url>"])
    ++ ["</urlset>"]

/-- `POST /admin/login`: the `ADMIN_PASSWORD` environment variable is the first
argument (`none` when absent); Python's `if not admin_password` also treats the
empty string as unset.  Returns the session after the attempt, the flashed
messages, and the redirect. -/
def admin_login_post (admin_password : Option String) (sess : Session)
    (username password next_form : String) : Session × List Flash × Response :=
  let username := pyStrip username
  let password := pyStrip password
  let next_url := if next_form == "" then "/admin" else next_form
  let disabledMsg : Flash :=
    ⟨"ADMIN_PASSWORD env var set केलेला नाही. सुरक्षा साठी admin login बंद आहे.", "danger"⟩
  match admin_password with
  | none => (sess, [disabledMsg], Response.redirectTo "/admin/login")
  | some ap =>
    if ap == "" then (sess, [disabledMsg], Response.redirectTo "/admin/login")
    else if username == "admin" && password == ap then
      ({ sess with admin := true }, [⟨"Admin login successful ✅", "success"⟩],
        Response.redirectTo next_url)
    else (sess, [⟨"Wrong username/password ❌", "danger"⟩], Response.redirectTo "/admin/login")

/-- The `admin_required` decorator around a mutating handler: an
unauthenticated session gets `redirect(url_for("admin_login", next=request.path))`
and the wrapped handler never runs (so the store is untouched and nothing is
flashed). -/
def admin_required (fn : Store → Store × List Flash × Response) (s : Store)
    (sess : Session) (path : String) : Store × List Flash × Response :=
  if sess.admin then fn s else (s, [], Response.redirectLogin path)

/-- Next AUTOINCREMENT id for the `categories` table. -/
def nextCategoryId (s : Store) : Nat :=
  (s.categories.map (·.id)).foldr max 0 + 1

/-- Next AUTOINCREMENT id for the `posts` table. -/
def nextPostId (s : Store) : Nat :=
  (s.posts.map (·.id)).foldr max 0 + 1

/-- The submitted category form. -/
structure CategoryForm where
  name : String
  slug : String
deriving DecidableEq, Repr

/-- `POST /admin/category/add`: validation, then an INSERT whose UNIQUE
constraints on `name` and `slug` raise `sqlite3.IntegrityError` on collision
(caught and flashed, nothing written). -/
def admin_add_category (s : Store) (sess : Session) (path : String)
    (form : CategoryForm) : Store × List Flash × Response :=
  admin_required (fun s =>
    let name := pyStrip form.name
    let slug := pyLower (pyStrip form.slug)
    if name == "" || slug == "" then
      (s, [⟨"Category name + slug required.", "danger"⟩], Response.redirectTo "/admin")
    else if s.categories.any fun c => c.name == name || c.slug == slug then
      (s, [⟨"हा slug/name आधीच आहे.", "danger"⟩], Response.redirectTo "/admin")
    else
      ({ s with categories := s.categories ++ [⟨nextCategoryId s, name, slug⟩] },
        [⟨"Category added ✅", "success"⟩], Response.redirectTo "/admin")) s sess path

/-- The submitted post form (create and edit share the field names;
`is_published` is the raw checkbox value, only read by the edit handler). -/
structure PostForm where
  title : String
  category_slug : String
  summary : String
  content : String
  source_url : String
  is_published : String
deriving DecidableEq, Repr

/-- `POST /admin/post/add`: requires title, category, summary and content to be
non-empty after trimming; inserts with `is_published = 1` and `created_at = now`. -/
def admin_add_post (s : Store) (sess : Session) (path : String) (form : PostForm)
    (now : String) : Store × List Flash × Response :=
  admin_required (fun s =>
    let title := pyStrip form.title
    let category_slug := pyStrip form.category_slug
    let summary := pyStrip form.summary
    let content := pyStrip form.content
    let source_url := if pyStrip form.source_url == "" then none else some (pyStrip form.source_url)
    if title == "" || category_slug == "" || summary == "" || content == "" then
      (s, [⟨"Title, Category, Summary, Content required.", "danger"⟩], Response.redirectTo "/admin")
    else
      ({ s with posts := s.posts ++
          [⟨nextPostId s, title, category_slug, summary, content, source_url, now, true⟩] },
        [⟨"Post added ✅", "success"⟩], Response.redirectTo "/admin")) s sess path

/-- `POST /admin/post/<id>/edit`: an unconditional UPDATE of the six mutable
fields (no validation at all); `is_published` becomes `1` exactly when the form
field is the string `"1"`. -/
def admin_edit_post_post (s : Store) (sess : Session) (path : String)
    (post_id : Nat) (form : PostForm) : Store × List Flash × Response :=
  admin_required (fun s =>
    let title := pyStrip form.title
    let category_slug := pyStrip form.category_slug
    let summary := pyStrip form.summary
    let content := pyStrip form.content
    let source_url := if pyStrip form.source_url == "" then none else some (pyStrip form.source_url)
    let is_published := form.is_published == "1"
    ({ s with posts := s.posts.map fun p =>
        if p.id == post_id then
          { p with title := title, category_slug := category_slug, summary := summary,
                   content := content, source_url := source_url, is_published := is_published }
        else p },
      [⟨"Post updated ✅", "success"⟩], Response.redirectTo "/admin")) s sess path

/-- `POST /admin/post/<id>/delete`: `DELETE FROM posts WHERE id=?`. -/
def admin_delete_post (s : Store) (sess : Session) (path : String)
    (post_id : Nat) : Store × List Flash × Response :=
  admin_required (fun s =>
    ({ s with posts := s.posts.filter fun p => !(p.id == post_id) },
      [⟨"Post deleted 🗑️", "info"⟩], Response.redirectTo "/admin")) s sess path

/-- The dashboard's dynamically built WHERE clause: optional
`AND category_slug=?` when the category filter is non-empty, and
`AND is_published=1` / `AND is_published=0` for the `published` / `draft`
status filters (any other status is unfiltered). -/
def dashboardPred (cf sf : String) (p : Post) : Bool :=
  (cf == "" || p.category_slug == cf) &&
    (if sf == "published" then p.is_published
     else if sf == "draft" then !p.is_published
     else true)

/-- `GET /admin?category=&status=`: guarded listing of the categories and the
first 100 matching posts by descending id (`... ORDER BY id DESC LIMIT 100`). -/
def admin_dashboard (s : Store) (sess : Session) (path : String)
    (category_filter status_filter : String) : PageResult (List Category × List Post) :=
  if sess.admin then
    let cf := pyStrip category_filter
    let sf := pyStrip status_filter
    PageResult.ok (sortCatsById s.categories,
      (sortByIdDesc (s.posts.filter (dashboardPred cf sf))).take 100)
  else PageResult.redirectLogin path

/-- `GET /admin/post/<id>/edit`: guarded fetch of the post (no publish filter);
`abort(404)` when the id is unknown. -/
def admin_edit_post (s : Store) (sess : Session) (path : String)
    (post_id : Nat) : PageResult (Post × List Category) :=
  if sess.admin then
    match s.posts.find? (fun p => p.id == post_id) with
    | none => PageResult.notFound
    | some p => PageResult.ok (p, sortCatsById s.categories)
  else PageResult.redirectLogin path

/-- Helper for the spec-side substring notion: `leadsWith n h` holds when `n`
is a literal (case-sensitive) prefix of `h`. -/
def leadsWith : List Char → List Char → Bool
  | [], _ => true
  | _ :: _, [] => false
  | a :: as, b :: bs => a == b && leadsWith as bs

/-- Helper for the spec-side substring notion: `subIn n h` holds when `n`
occurs contiguously somewhere in `h`. -/
def subIn (needle : List Char) : List Char → Bool
  | [] => leadsWith needle []
  | c :: t => leadsWith needle (c :: t) || subIn needle t

/-- Formalisation of the specification's words "contains … as a substring"
(and, for the robots policy, "contains a `Disallow` directive"): literal,
case-sensitive, contiguous containment.  This definition follows the spec's
wording and is compared against the source-derived query semantics. -/
def specContainsSubstring (hay needle : String) : Bool :=
  subIn needle.data hay.data

/-! ### Helper lemmas -/

theorem decDigitsAux_fuel (f : Nat) :
    ∀ g n, n < f → n < g → decDigitsAux f n = decDigitsAux g n := by
  induction f with
  | zero => intro g n h _; exact absurd h (Nat.not_lt_zero n)
  | succ f ih =>
    intro g n hf hg
    obtain ⟨g, rfl⟩ : ∃ g', g = g' + 1 := ⟨g - 1, by omega⟩
    by_cases h10 : n < 10
    · simp [decDigitsAux, h10]
    · have hlt : n / 10 < n := Nat.div_lt_self (by omega) (by omega)
      simp only [decDigitsAux, if_neg h10]
      rw [ih g (n / 10) (by omega) (by omega)]

theorem decDigitsAux_ne_nil (f n : Nat) (h : n < f) : decDigitsAux f n ≠ [] := by
  obtain ⟨f, rfl⟩ : ∃ f', f = f' + 1 := ⟨f - 1, by omega⟩
  by_cases h10 : n < 10
  · simp [decDigitsAux, h10]
  · simp [decDigitsAux, h10]

theorem digitChar_inj (a b : Nat) (ha : a < 10) (hb : b < 10)
    (h : Nat.digitChar a = Nat.digitChar b) : a = b := by
  interval_cases a <;> interval_cases b <;> revert h <;> decide

theorem decDigitsAux_inj (f : Nat) :
    ∀ m n, m < f → n < f → decDigitsAux f m = decDigitsAux f n → m = n := by
  induction f with
  | zero => intro m n h _ _; exact absurd h (Nat.not_lt_zero m)
  | succ f ih =>
    intro m n hm hn h
    by_cases hm10 : m < 10 <;> by_cases hn10 : n < 10
    · simp only [decDigitsAux, if_pos hm10, if_pos hn10] at h
      simp only [List.cons.injEq, and_true] at h
      exact digitChar_inj m n hm10 hn10 h
    · simp only [decDigitsAux, if_pos hm10, if_neg hn10] at h
      have hdiv : n / 10 < n := Nat.div_lt_self (by omega) (by omega)
      have hne := decDigitsAux_ne_nil f (n / 10) (by omega)
      have hlen := congrArg List.length h
      simp only [List.length_append, List.length_cons, List.length_nil] at hlen
      exact absurd (List.length_eq_zero.mp (by omega)) hne
    · simp only [decDigitsAux, if_neg hm10, if_pos hn10] at h
      have hdiv : m / 10 < m := Nat.div_lt_self (by omega) (by omega)
      have hne := decDigitsAux_ne_nil f (m / 10) (by omega)
      have hlen := congrArg List.length h
      simp only [List.length_append, List.length_cons, List.length_nil] at hlen
      exact absurd (List.length_eq_zero.mp (by omega)) hne
    · simp only [decDigitsAux, if_neg hm10, if_neg hn10] at h
      obtain ⟨h3, h4⟩ := List.append_inj' h (by simp)
      have hm' : m / 10 < m := Nat.div_lt_self (by omega) (by omega)
      have hn' : n / 10 < n := Nat.div_lt_self (by omega) (by omega)
      have hdiv : m / 10 = n / 10 := ih (m / 10) (n / 10) (by omega) (by omega) h3
      have hmod : m % 10 = n % 10 := by
        refine digitChar_inj _ _ (Nat.mod_lt m (by omega)) (Nat.mod_lt n (by omega)) ?_
        simpa using h4
      omega

theorem strOfNat_inj : Function.Injective strOfNat := by
  intro m n h
  have hd : decDigitsAux (m + 1) m = decDigitsAux (n + 1) n := congrArg String.data h
  have hm := decDigitsAux_fuel (m + 1) (m + n + 1) m (by omega) (by omega)
  have hn := decDigitsAux_fuel (n + 1) (m + n + 1) n (by omega) (by omega)
  exact decDigitsAux_inj (m + n + 1) m n (by omega) (by omega) (by rw [← hm, ← hn]; exact hd)

theorem leadsWith_append (n h t : List Char) (hl : leadsWith n h = true) :
    leadsWith n (h ++ t) = true := by
  induction n generalizing h with
  | nil => simp [leadsWith]
  | cons a as ih =>
    cases h with
    | nil => simp [leadsWith] at hl
    | cons b bs =>
      simp only [leadsWith, Bool.and_eq_true] at hl
      simp only [List.cons_append, leadsWith, Bool.and_eq_true]
      exact ⟨hl.1, ih bs hl.2⟩

theorem leadsWith_self_append (n t : List Char) : leadsWith n (n ++ t) = true := by
  induction n with
  | nil => simp [leadsWith]
  | cons a as ih => simp [leadsWith, ih]

theorem subIn_nil_needle (t : List Char) : subIn [] t = true := by
  cases t <;> simp [subIn, leadsWith]

theorem subIn_append_left (n h t : List Char) (hs : subIn n h = true) :
    subIn n (h ++ t) = true := by
  induction h with
  | nil =>
    cases n with
    | nil => simpa using subIn_nil_needle t
    | cons a as => simp [subIn, leadsWith] at hs
  | cons c h' ih =>
    simp only [subIn, Bool.or_eq_true] at hs
    simp only [List.cons_append, subIn, Bool.or_eq_true]
    rcases hs with hs | hs
    · exact Or.inl (by simpa [List.cons_append] using leadsWith_append n (c :: h') t hs)
    · exact Or.inr (ih hs)

theorem subIn_factor (a n c : List Char) : subIn n (a ++ n ++ c) = true := by
  induction a with
  | nil =>
    cases n with
    | nil => simpa using subIn_nil_needle c
    | cons x xs =>
      simp only [List.nil_append, List.cons_append, subIn, Bool.or_eq_true]
      exact Or.inl (by simpa [List.cons_append] using leadsWith_self_append (x :: xs) c)
  | cons y a' ih =>
    simp only [List.cons_append, subIn, Bool.or_eq_true]
    exact Or.inr (by simpa [List.cons_append] using ih)

theorem url_root_ne_cat (b x : String) : b ++ "/" ≠ b ++ "/category/" ++ x := by
  intro h
  have hl := congrArg String.length h
  simp only [String.length_append] at hl
  have e1 : ("/" : String).length = 1 := by decide
  have e2 : ("/category/" : String).length = 10 := by decide
  rw [e1, e2] at hl
  omega

theorem url_root_ne_post (b x : String) : b ++ "/" ≠ b ++ "/post/" ++ x := by
  intro h
  have hl := congrArg String.length h
  simp only [String.length_append] at hl
  have e1 : ("/" : String).length = 1 := by decide
  have e2 : ("/post/" : String).length = 6 := by decide
  rw [e1, e2] at hl
  omega

theorem url_cat_ne_post (b x y : String) : b ++ "/category/" ++ x ≠ b ++ "/post/" ++ y := by
  intro h
  have hd := congrArg String.data h
  simp only [String.data_append, List.append_assoc] at hd
  have h3 := List.append_cancel_left hd
  simp only [List.cons_append, List.nil_append] at h3
  injection h3 with _ h4
  injection h4 with h5 _
  exact absurd h5 (by decide)

theorem url_cat_inj (b : String) {x y : String}
    (h : b ++ "/category/" ++ x = b ++ "/category/" ++ y) : x = y := by
  have hd := congrArg String.data h
  simp only [String.data_append, List.append_assoc] at hd
  exact String.ext (List.append_cancel_left (List.append_cancel_left hd))

theorem url_post_inj (b : String) {m n : Nat}
    (h : b ++ "/post/" ++ strOfNat m = b ++ "/post/" ++ strOfNat n) : m = n := by
  have hd := congrArg String.data h
  simp only [String.data_append, List.append_assoc] at hd
  exact strOfNat_inj (String.ext (List.append_cancel_left (List.append_cancel_left hd)))

theorem url_line_ne_loc (u : String) :
    ("  <url>" : String) ≠ "    <loc>" ++ u ++ "</loc>" := by
  intro h
  have hl := congrArg String.length h
  simp only [String.length_append] at hl
  have e1 : ("  <url>" : String).length = 7 := by decide
  have e2 : ("    <loc>" : String).length = 9 := by decide
  have e3 : ("</loc>" : String).length = 6 := by decide
  rw [e1, e2, e3] at hl
  omega

theorem count_url_lines (urls : List String) :
    ((urls.flatMap fun u => ["  <url>", "    <loc>" ++ u ++ "</loc>", "  </url>"]).count
        "  <url>") = urls.length := by
  induction urls with
  | nil => rfl
  | cons u us ih =>
    rw [List.flatMap_cons, List.count_append, ih]
    have h1 : ("  <url>" : String) ≠ "  </url>" := by decide
    have h2 := url_line_ne_loc u
    simp [List.count_cons, h1, h2]
    omega

theorem not_mem_published_sort (p : Post) (hdraft : p.is_published = false)
    (pred : Post → Bool) (hpred : ∀ x, pred x = true → x.is_published = true)
    (l : List Post) : p ∉ sortByIdDesc (l.filter pred) := by
  intro hmem
  rw [sortByIdDesc, List.mem_insertionSort, List.mem_filter] at hmem
  have := hpred p hmem.2
  rw [hdraft] at this
  exact absurd this (by decide)

theorem not_mem_published_take (p : Post) (hdraft : p.is_published = false)
    (pred : Post → Bool) (hpred : ∀ x, pred x = true → x.is_published = true)
    (l : List Post) (n : Nat) : p ∉ (sortByIdDesc (l.filter pred)).take n := fun hmem =>
  not_mem_published_sort p hdraft pred hpred l (List.mem_of_mem_take hmem)

/-! ### Concrete fixtures used by witnesses and counterexamples -/

/-- The seeded category set from `init_db`. -/
def seedCats : List Category :=
  [⟨1, "Jobs", "job"⟩, ⟨2, "Results", "result"⟩, ⟨3, "Schemes", "scheme"⟩,
   ⟨4, "Exam Cutoffs", "examcutoff"⟩, ⟨5, "Current Affairs", "currentaffairs"⟩]

/-- A published post. -/
def wPost1 : Post := ⟨1, "Exam Notice", "job", "summary one", "content one", none,
  "2024-01-01 10:00", true⟩

/-- A draft (unpublished) post. -/
def wDraft : Post := ⟨2, "Draft Notice", "job", "summary two", "content two", none,
  "2024-01-02 10:00", false⟩

/-- A small store: the seeded categories, one published post, one draft. -/
def wStore : Store := ⟨seedCats, [wPost1, wDraft]⟩

/-- A post form whose required fields are all blank after trimming. -/
def blankForm : PostForm := ⟨" ", "", "\n", "  ", "", ""⟩

/-! ### Claim theorems -/

/-- C5: when no `ADMIN_PASSWORD` is configured, every login attempt leaves the
session unchanged (the admin flag is never set), flashes a "danger" warning,
and redirects back to the login page — fail-closed. -/
theorem login_disabled_fail_closed (sess : Session) (username password next_form : String) :
    (admin_login_post none sess username password next_form).1 = sess
      ∧ (∃ f ∈ (admin_login_post none sess username password next_form).2.1,
          f.category = "danger")
      ∧ (admin_login_post none sess username password next_form).2.2
          = Response.redirectTo "/admin/login" := by
  refine ⟨rfl, ⟨⟨"ADMIN_PASSWORD env var set केलेला नाही. सुरक्षा साठी admin login बंद आहे.",
    "danger"⟩, List.Mem.head _, rfl⟩, rfl⟩

/-- Witness for C5 at a concrete login attempt. -/
theorem login_disabled_fail_closed_witness :
    (admin_login_post none ⟨false⟩ "admin" "hunter2" "/admin").1 = ⟨false⟩
      ∧ (∃ f ∈ (admin_login_post none ⟨false⟩ "admin" "hunter2" "/admin").2.1,
          f.category = "danger")
      ∧ (admin_login_post none ⟨false⟩ "admin" "hunter2" "/admin").2.2
          = Response.redirectTo "/admin/login" :=
  login_disabled_fail_closed ⟨false⟩ "admin" "hunter2" "/admin"

/-- C6: every mutating admin endpoint, called with an unauthenticated session,
returns the store unchanged, flashes nothing, and redirects to the login page
preserving the requested path. -/
theorem unauthenticated_no_write (s : Store) (sess : Session) (path : String)
    (cform : CategoryForm) (pform : PostForm) (now : String) (pid : Nat)
    (hs : sess.admin = false) :
    admin_add_category s sess path cform = (s, [], Response.redirectLogin path)
      ∧ admin_add_post s sess path pform now = (s, [], Response.redirectLogin path)
      ∧ admin_edit_post_post s sess path pid pform = (s, [], Response.redirectLogin path)
      ∧ admin_delete_post s sess path pid = (s, [], Response.redirectLogin path) := by
  refine ⟨?_, ?_, ?_, ?_⟩ <;>
    simp [admin_add_category, admin_add_post, admin_edit_post_post, admin_delete_post,
      admin_required, hs]

/-- Witness for C6 at a concrete store and request. -/
theorem unauthenticated_no_write_witness :
    admin_add_category wStore ⟨false⟩ "/admin/category/add" ⟨"X", "x"⟩
        = (wStore, [], Response.redirectLogin "/admin/category/add")
      ∧ admin_add_post wStore ⟨false⟩ "/admin/category/add" blankForm "2024"
          = (wStore, [], Response.redirectLogin "/admin/category/add")
      ∧ admin_edit_post_post wStore ⟨false⟩ "/admin/category/add" 1 blankForm
          = (wStore, [], Response.redirectLogin "/admin/category/add")
      ∧ admin_delete_post wStore ⟨false⟩ "/admin/category/add" 1
          = (wStore, [], Response.redirectLogin "/admin/category/add") :=
  unauthenticated_no_write wStore ⟨false⟩ "/admin/category/add" ⟨"X", "x"⟩ blankForm "2024" 1 rfl

/-- C8: the home sections respect their caps (jobs 8, results 6, schemes 6,
examcutoffs 6, current-affairs 8, latest 10) and contain only published posts,
for every store state. -/
theorem home_caps (s : Store) :
    ((home s).jobs.length ≤ 8 ∧ (home s).results.length ≤ 6 ∧ (home s).schemes.length ≤ 6
        ∧ (home s).examcutoffs.length ≤ 6 ∧ (home s).current_affairs.length ≤ 8
        ∧ (home s).latest.length ≤ 10)
      ∧ ((∀ p ∈ (home s).jobs, p.is_published = true)
          ∧ (∀ p ∈ (home s).results, p.is_published = true)
          ∧ (∀ p ∈ (home s).schemes, p.is_published = true)
          ∧ (∀ p ∈ (home s).examcutoffs, p.is_published = true)
          ∧ (∀ p ∈ (home s).current_affairs, p.is_published = true)
          ∧ (∀ p ∈ (home s).latest, p.is_published = true)) := by
  have hlen : ∀ slug n, (latest_for s slug n).length ≤ n := by
    intro slug n
    rw [latest_for, List.length_take]
    exact Nat.min_le_left _ _
  have hsec : ∀ slug n p, p ∈ latest_for s slug n → p.is_published = true := by
    intro slug n p hp
    rw [latest_for] at hp
    have h1 := List.mem_of_mem_take hp
    rw [sortByIdDesc, List.mem_insertionSort, List.mem_filter] at h1
    have h2 := h1.2
    simp only [Bool.and_eq_true] at h2
    exact h2.2
  have hlat : ∀ p ∈ (home s).latest, p.is_published = true := by
    intro p hp
    have h1 := List.mem_of_mem_take hp
    rw [sortByIdDesc, List.mem_insertionSort, List.mem_filter] at h1
    exact h1.2
  have hlatlen : (home s).latest.length ≤ 10 := by
    show ((sortByIdDesc (s.posts.filter (·.is_published))).take 10).length ≤ 10
    rw [List.length_take]
    exact Nat.min_le_left _ _
  exact ⟨⟨hlen "job" 8, hlen "result" 6, hlen "scheme" 6, hlen "examcutoff" 6,
      hlen "currentaffairs" 8, hlatlen⟩,
    fun p hp => hsec "job" 8 p hp, fun p hp => hsec "result" 6 p hp,
    fun p hp => hsec "scheme" 6 p hp, fun p hp => hsec "examcutoff" 6 p hp,
    fun p hp => hsec "currentaffairs" 8 p hp, hlat⟩

/-- Witness for C8 at a concrete store. -/
theorem home_caps_witness :
    ((home wStore).jobs.length ≤ 8 ∧ (home wStore).results.length ≤ 6
        ∧ (home wStore).schemes.length ≤ 6 ∧ (home wStore).examcutoffs.length ≤ 6
        ∧ (home wStore).current_affairs.length ≤ 8 ∧ (home wStore).latest.length ≤ 10)
      ∧ ((∀ p ∈ (home wStore).jobs, p.is_published = true)
          ∧ (∀ p ∈ (home wStore).results, p.is_published = true)
          ∧ (∀ p ∈ (home wStore).schemes, p.is_published = true)
          ∧ (∀ p ∈ (home wStore).examcutoffs, p.is_published = true)
          ∧ (∀ p ∈ (home wStore).current_affairs, p.is_published = true)
          ∧ (∀ p ∈ (home wStore).latest, p.is_published = true)) :=
  home_caps wStore

/-- C10: the edit endpoint performs no non-emptiness validation: with all four
required fields blank it still reports success and stores the empty strings,
while the create endpoint rejects the same form with a validation message. -/
theorem edit_post_no_validation (s : Store) (sess : Session) (path : String) (pid : Nat)
    (form : PostForm) (now : String) (p : Post)
    (hauth : sess.admin = true)
    (ht : pyStrip form.title = "") (hc : pyStrip form.category_slug = "")
    (hsum : pyStrip form.summary = "") (hcon : pyStrip form.content = "")
    (hp : p ∈ s.posts) (hpid : p.id = pid) :
    (admin_edit_post_post s sess path pid form).2.1 = [⟨"Post updated ✅", "success"⟩]
      ∧ (admin_edit_post_post s sess path pid form).2.2 = Response.redirectTo "/admin"
      ∧ (∃ p2 ∈ (admin_edit_post_post s sess path pid form).1.posts,
          p2.id = pid ∧ p2.title = "" ∧ p2.category_slug = "" ∧ p2.summary = ""
            ∧ p2.content = "")
      ∧ admin_add_post s sess path form now
          = (s, [⟨"Title, Category, Summary, Content required.", "danger"⟩],
              Response.redirectTo "/admin") := by
  cases sess with
  | mk b =>
    have hb : b = true := hauth
    subst hb
    refine ⟨rfl, rfl, ?_, ?_⟩
    · refine ⟨(fun q => if q.id == pid then
          { q with title := pyStrip form.title, category_slug := pyStrip form.category_slug,
                   summary := pyStrip form.summary, content := pyStrip form.content,
                   source_url := if pyStrip form.source_url == "" then none
                     else some (pyStrip form.source_url),
                   is_published := form.is_published == "1" } else q) p,
        List.mem_map_of_mem _ hp, ?_, ?_, ?_, ?_, ?_⟩ <;>
        simp [hpid, ht, hc, hsum, hcon]
    · simp [admin_add_post, admin_required, ht]

/-- Witness for C10: editing post 1 of the small store with an all-blank form. -/
theorem edit_post_no_validation_witness :
    (admin_edit_post_post wStore ⟨true⟩ "/admin/post/1/edit" 1 blankForm).2.1
        = [⟨"Post updated ✅", "success"⟩]
      ∧ (admin_edit_post_post wStore ⟨true⟩ "/admin/post/1/edit" 1 blankForm).2.2
          = Response.redirectTo "/admin"
      ∧ (∃ p2 ∈ (admin_edit_post_post wStore ⟨true⟩ "/admin/post/1/edit" 1 blankForm).1.posts,
          p2.id = 1 ∧ p2.title = "" ∧ p2.category_slug = "" ∧ p2.summary = ""
            ∧ p2.content = "")
      ∧ admin_add_post wStore ⟨true⟩ "/admin/post/1/edit" blankForm "2024"
          = (wStore, [⟨"Title, Category, Summary, Content required.", "danger"⟩],
              Response.redirectTo "/admin") :=
  edit_post_no_validation wStore ⟨true⟩ "/admin/post/1/edit" 1 blankForm "2024" wPost1
    rfl (by decide) (by decide) (by decide) (by decide) (by decide) rfl

/-- C1: an unpublished post is invisible on every public read path — all five
home sections, the home latest feed, every category listing, the single-post
fetch (404), and every search query. -/
theorem unpublished_invisible (s : Store) (p : Post)
    (hp : p ∈ s.posts) (hdraft : p.is_published = false)
    (hids : (s.posts.map (·.id)).Nodup) :
    p ∉ (home s).jobs ∧ p ∉ (home s).results ∧ p ∉ (home s).schemes
      ∧ p ∉ (home s).examcutoffs ∧ p ∉ (home s).current_affairs ∧ p ∉ (home s).latest
      ∧ (∀ slug cat posts2, category s slug = some (cat, posts2) → p ∉ posts2)
      ∧ post s p.id = none
      ∧ (∀ q, p ∉ search s q) := by
  have hsection : ∀ slug n, p ∉ latest_for s slug n := by
    intro slug n
    rw [latest_for]
    refine not_mem_published_take p hdraft _ (fun x hx => ?_) s.posts n
    simp only [Bool.and_eq_true] at hx
    exact hx.2
  have hlatest : p ∉ (home s).latest := by
    show p ∉ (sortByIdDesc (s.posts.filter (·.is_published))).take 10
    exact not_mem_published_take p hdraft _ (fun x hx => hx) s.posts 10
  have hcat : ∀ slug cat posts2, category s slug = some (cat, posts2) → p ∉ posts2 := by
    intro slug cat posts2 hres
    rw [category] at hres
    cases hfind : s.categories.find? (fun c => c.slug == slug) with
    | none => rw [hfind] at hres; exact absurd hres (by simp)
    | some c =>
      rw [hfind] at hres
      simp only [Option.some.injEq, Prod.mk.injEq] at hres
      rw [← hres.2]
      refine not_mem_published_sort p hdraft _ (fun x hx => ?_) s.posts
      simp only [Bool.and_eq_true] at hx
      exact hx.2
  have hpost : post s p.id = none := by
    suffices hf : s.posts.find? (fun q => q.id == p.id && q.is_published) = none by
      simp [post, hf]
    rw [List.find?_eq_none]
    intro x hx hcontra
    simp only [Bool.and_eq_true, beq_iff_eq] at hcontra
    have hxp : x = p := List.inj_on_of_nodup_map hids hx hp hcontra.1
    have h2 := hcontra.2
    rw [hxp, hdraft] at h2
    exact absurd h2 (by decide)
  have hsearch : ∀ q, p ∉ search s q := by
    intro q
    by_cases hq : pyStrip q = ""
    · simp [search, hq]
    · have hred : search s q = sortByIdDesc (s.posts.filter fun x =>
          x.is_published && (likeStr ("%" ++ pyStrip q ++ "%") x.title
            || likeStr ("%" ++ pyStrip q ++ "%") x.summary
            || likeStr ("%" ++ pyStrip q ++ "%") x.content)) := by
        simp [search, hq]
      rw [hred]
      refine not_mem_published_sort p hdraft _ (fun x hx => ?_) s.posts
      simp only [Bool.and_eq_true] at hx
      exact hx.1
  exact ⟨hsection "job" 8, hsection "result" 6, hsection "scheme" 6, hsection "examcutoff" 6,
    hsection "currentaffairs" 8, hlatest, hcat, hpost, hsearch⟩

/-- Witness for C1: the concrete draft in the small store. -/
theorem unpublished_invisible_witness :
    wDraft ∉ (home wStore).jobs ∧ wDraft ∉ (home wStore).results
      ∧ wDraft ∉ (home wStore).schemes ∧ wDraft ∉ (home wStore).examcutoffs
      ∧ wDraft ∉ (home wStore).current_affairs ∧ wDraft ∉ (home wStore).latest
      ∧ (∀ slug cat posts2, category wStore slug = some (cat, posts2) → wDraft ∉ posts2)
      ∧ post wStore wDraft.id = none
      ∧ (∀ q, wDraft ∉ search wStore q) :=
  unpublished_invisible wStore wDraft (by decide) rfl (by decide)

/-- C7 (amended): an authenticated category-creation attempt whose trimmed name
or lowered slug collides with an existing category — both fields non-empty —
is rejected with the duplicate-key message and leaves the store unchanged. -/
theorem duplicate_category_rejected (s : Store) (sess : Session) (path : String)
    (form : CategoryForm)
    (hauth : sess.admin = true)
    (hname : pyStrip form.name ≠ "")
    (hslug : pyLower (pyStrip form.slug) ≠ "")
    (hdup : ∃ c ∈ s.categories,
      c.name = pyStrip form.name ∨ c.slug = pyLower (pyStrip form.slug)) :
    admin_add_category s sess path form
      = (s, [⟨"हा slug/name आधीच आहे.", "danger"⟩], Response.redirectTo "/admin") := by
  cases sess with
  | mk b =>
    have hb : b = true := hauth
    subst hb
    have hany : (s.categories.any fun c =>
        c.name == pyStrip form.name || c.slug == pyLower (pyStrip form.slug)) = true := by
      rw [List.any_eq_true]
      obtain ⟨c, hc, hcase⟩ := hdup
      exact ⟨c, hc, by rcases hcase with h | h <;> simp [h]⟩
    simp [admin_add_category, admin_required, hname, hslug, hany]

/-- Witness for C7: re-adding the seeded `job` slug (name " Jobs ", slug "JOB"). -/
theorem duplicate_category_rejected_witness :
    admin_add_category wStore ⟨true⟩ "/admin/category/add" ⟨" Jobs ", "JOB"⟩
      = (wStore, [⟨"हा slug/name आधीच आहे.", "danger"⟩], Response.redirectTo "/admin") :=
  duplicate_category_rejected wStore ⟨true⟩ "/admin/category/add" ⟨" Jobs ", "JOB"⟩
    rfl (by decide) (by decide) (by decide)

/-- Counterexample to C7 as stated: submitting the already-existing name "Jobs"
with a blank slug is an attempt whose name already exists, yet it fails with
the required-fields validation message, not the duplicate-key message. -/
theorem duplicate_category_claim_cex :
    (∃ c ∈ wStore.categories, c.name = pyStrip "Jobs")
      ∧ admin_add_category wStore ⟨true⟩ "/admin/category/add" ⟨"Jobs", ""⟩
          = (wStore, [⟨"Category name + slug required.", "danger"⟩],
              Response.redirectTo "/admin")
      ∧ (⟨"Category name + slug required.", "danger"⟩ : Flash)
          ≠ ⟨"हा slug/name आधीच आहे.", "danger"⟩ := by
  decide

/-- C9 (amended): a post — in particular a draft — stays visible to the
authenticated admin: it appears in the dashboard listing under filters it
matches whenever at most 100 posts match them (the listing is capped at 100),
and its edit form loads without a 404. -/
theorem draft_visible_to_admin (s : Store) (sess : Session) (path : String)
    (cf sf : String) (p : Post)
    (hauth : sess.admin = true) (hp : p ∈ s.posts) (hdraft : p.is_published = false)
    (hmatch : dashboardPred (pyStrip cf) (pyStrip sf) p = true)
    (hfew : (s.posts.filter (dashboardPred (pyStrip cf) (pyStrip sf))).length ≤ 100) :
    (∃ cats posts2, admin_dashboard s sess path cf sf = PageResult.ok (cats, posts2)
        ∧ p ∈ posts2)
      ∧ (∃ v, admin_edit_post s sess path p.id = PageResult.ok v) := by
  cases sess with
  | mk b =>
    have hb : b = true := hauth
    subst hb
    constructor
    · refine ⟨sortCatsById s.categories,
        (sortByIdDesc (s.posts.filter (dashboardPred (pyStrip cf) (pyStrip sf)))).take 100,
        rfl, ?_⟩
      have hlen : (sortByIdDesc
          (s.posts.filter (dashboardPred (pyStrip cf) (pyStrip sf)))).length ≤ 100 := by
        rw [sortByIdDesc, List.length_insertionSort]
        exact hfew
      rw [List.take_of_length_le hlen, sortByIdDesc, List.mem_insertionSort, List.mem_filter]
      exact ⟨hp, hmatch⟩
    · have hsome : (s.posts.find? fun q => q.id == p.id).isSome := by
        rw [List.find?_isSome]
        exact ⟨p, hp, by simp⟩
      obtain ⟨v, hv⟩ := Option.isSome_iff_exists.mp hsome
      exact ⟨(v, sortCatsById s.categories), by simp [admin_edit_post, hv]⟩

/-- Witness for C9: the draft of the small store under empty filters. -/
theorem draft_visible_to_admin_witness :
    (∃ cats posts2, admin_dashboard wStore ⟨true⟩ "/admin" "" "" = PageResult.ok (cats, posts2)
        ∧ wDraft ∈ posts2)
      ∧ (∃ v, admin_edit_post wStore ⟨true⟩ "/admin" wDraft.id = PageResult.ok v) :=
  draft_visible_to_admin wStore ⟨true⟩ "/admin" "" "" wDraft rfl (by decide) rfl
    (by decide) (by decide)

/-- The posts of an `ok` dashboard page (empty for a redirect or 404). -/
def pageOkPosts : PageResult (List Category × List Post) → List Post
  | PageResult.ok (_, ps) => ps
  | _ => []

/-- Whether a dashboard page rendered successfully. -/
def isOkPage : PageResult (List Category × List Post) → Bool
  | PageResult.ok _ => true
  | _ => false

/-- A store holding 101 drafts (ids 1..101) in the `job` category. -/
def cex9posts : List Post :=
  (List.range 101).map fun i => ⟨i + 1, "t", "job", "s", "c", none, "2024", false⟩

/-- The 101-draft store. -/
def cex9store : Store := ⟨[⟨1, "Jobs", "job"⟩], cex9posts⟩

/-- The oldest draft (id 1) of the 101-draft store. -/
def cex9p : Post := ⟨1, "t", "job", "s", "c", none, "2024", false⟩

/-- Counterexample to C9 as stated: with 101 drafts, the oldest draft is absent
from the admin dashboard listing under every filter combination that matches
it, because of the `LIMIT 100` cap. -/
theorem dashboard_cap_hides_draft_cex :
    cex9p ∈ cex9store.posts ∧ cex9p.is_published = false
      ∧ isOkPage (admin_dashboard cex9store ⟨true⟩ "/admin" "" "") = true
      ∧ cex9p ∉ pageOkPosts (admin_dashboard cex9store ⟨true⟩ "/admin" "" "")
      ∧ isOkPage (admin_dashboard cex9store ⟨true⟩ "/admin" "" "draft") = true
      ∧ cex9p ∉ pageOkPosts (admin_dashboard cex9store ⟨true⟩ "/admin" "" "draft")
      ∧ isOkPage (admin_dashboard cex9store ⟨true⟩ "/admin" "job" "") = true
      ∧ cex9p ∉ pageOkPosts (admin_dashboard cex9store ⟨true⟩ "/admin" "job" "")
      ∧ isOkPage (admin_dashboard cex9store ⟨true⟩ "/admin" "job" "draft") = true
      ∧ cex9p ∉ pageOkPosts (admin_dashboard cex9store ⟨true⟩ "/admin" "job" "draft") := by
  decide

/-- C2: the sitemap has exactly `1 + |categories| + |published posts|` url
entries, ordered root first, then one URL per category slug, then one URL per
published post id, without duplicates (given the table's UNIQUE/PRIMARY KEY
constraints) and with no entry for an unpublished post. -/
theorem sitemap_entries (s : Store) (host : String)
    (hslugs : (s.categories.map (·.slug)).Nodup)
    (hids : (s.posts.map (·.id)).Nodup) :
    (sitemap_xml s host).count "  <url>"
        = 1 + s.categories.length + (s.posts.filter (·.is_published)).length
      ∧ sitemap_urls s host
          = (pyRstrip '/' host ++ "/")
              :: ((s.categories.map fun c => pyRstrip '/' host ++ "/category/" ++ c.slug)
                  ++ ((s.posts.filter (·.is_published)).map fun p =>
                        pyRstrip '/' host ++ "/post/" ++ strOfNat p.id))
      ∧ (sitemap_urls s host).Nodup
      ∧ (∀ p ∈ s.posts, p.is_published = false →
          (pyRstrip '/' host ++ "/post/" ++ strOfNat p.id) ∉ sitemap_urls s host) := by
  have horder : sitemap_urls s host
      = (pyRstrip '/' host ++ "/")
          :: ((s.categories.map fun c => pyRstrip '/' host ++ "/category/" ++ c.slug)
              ++ ((s.posts.filter (·.is_published)).map fun p =>
                    pyRstrip '/' host ++ "/post/" ++ strOfNat p.id)) := rfl
  have hcount : (sitemap_xml s host).count "  <url>"
      = 1 + s.categories.length + (s.posts.filter (·.is_published)).length := by
    have h1 : (["<?xml version=\"1.0\" encoding=\"UTF-8\"?>",
        "<urlset xmlns=\"http://www.sitemaps.org/schemas/sitemap/0.9\">"] :
          List String).count "  <url>" = 0 := by decide
    have h2 : (["</urlset>"] : List String).count "  <url>" = 0 := by decide
    have hlen : (sitemap_urls s host).length
        = 1 + s.categories.length + (s.posts.filter (·.is_published)).length := by
      simp [sitemap_urls]
      omega
    rw [sitemap_xml, List.count_append, List.count_append, count_url_lines, h1, h2, hlen]
    omega
  have hcatnd : (s.categories.map fun c => pyRstrip '/' host ++ "/category/" ++ c.slug).Nodup := by
    have hmm : (s.categories.map fun c => pyRstrip '/' host ++ "/category/" ++ c.slug)
        = ((s.categories.map fun c => c.slug).map
            fun sl => pyRstrip '/' host ++ "/category/" ++ sl) := by
      rw [List.map_map]
      rfl
    rw [hmm]
    exact List.Nodup.map (fun x y h => url_cat_inj (pyRstrip '/' host) h) hslugs
  have hpubids : ((s.posts.filter (·.is_published)).map (·.id)).Nodup :=
    List.Nodup.sublist (List.Sublist.map (·.id) (List.filter_sublist s.posts)) hids
  have hpostnd : ((s.posts.filter (·.is_published)).map
      fun p => pyRstrip '/' host ++ "/post/" ++ strOfNat p.id).Nodup := by
    have hmm : ((s.posts.filter (·.is_published)).map
          fun p => pyRstrip '/' host ++ "/post/" ++ strOfNat p.id)
        = (((s.posts.filter (·.is_published)).map (·.id)).map
            fun i => pyRstrip '/' host ++ "/post/" ++ strOfNat i) := by
      rw [List.map_map]
      rfl
    rw [hmm]
    exact List.Nodup.map (fun x y h => url_post_inj (pyRstrip '/' host) h) hpubids
  have hnodup : (sitemap_urls s host).Nodup := by
    rw [horder, List.nodup_cons]
    constructor
    · intro hmem
      rcases List.mem_append.mp hmem with hA | hB
      · obtain ⟨c, _, heq⟩ := List.mem_map.mp hA
        exact url_root_ne_cat (pyRstrip '/' host) c.slug heq.symm
      · obtain ⟨p, _, heq⟩ := List.mem_map.mp hB
        exact url_root_ne_post (pyRstrip '/' host) (strOfNat p.id) heq.symm
    · rw [List.nodup_append]
      refine ⟨hcatnd, hpostnd, ?_⟩
      rw [List.disjoint_left]
      intro a haA haB
      obtain ⟨c, _, heqA⟩ := List.mem_map.mp haA
      obtain ⟨p, _, heqB⟩ := List.mem_map.mp haB
      exact url_cat_ne_post (pyRstrip '/' host) c.slug (strOfNat p.id)
        (heqA.trans heqB.symm)
  refine ⟨hcount, horder, hnodup, ?_⟩
  intro p hp hdraft hmem
  rw [horder] at hmem
  rcases List.mem_cons.mp hmem with heq | hmem2
  · exact url_root_ne_post (pyRstrip '/' host) (strOfNat p.id) heq.symm
  rcases List.mem_append.mp hmem2 with hA | hB
  · obtain ⟨c, _, heq⟩ := List.mem_map.mp hA
    exact url_cat_ne_post (pyRstrip '/' host) c.slug (strOfNat p.id) heq
  · obtain ⟨q, hq, heq⟩ := List.mem_map.mp hB
    have hqmem := List.mem_filter.mp hq
    have hqid : q.id = p.id := url_post_inj (pyRstrip '/' host) heq
    have hqp : q = p := List.inj_on_of_nodup_map hids hqmem.1 hp (by simpa using hqid)
    have hpub := hqmem.2
    rw [hqp, hdraft] at hpub
    exact absurd hpub (by decide)

/-- Witness for C2: the small store at a concrete host. -/
theorem sitemap_entries_witness :
    (sitemap_xml wStore "http://example.com/").count "  <url>"
        = 1 + wStore.categories.length + (wStore.posts.filter (·.is_published)).length
      ∧ sitemap_urls wStore "http://example.com/"
          = (pyRstrip '/' "http://example.com/" ++ "/")
              :: ((wStore.categories.map
                    fun c => pyRstrip '/' "http://example.com/" ++ "/category/" ++ c.slug)
                  ++ ((wStore.posts.filter (·.is_published)).map fun p =>
                        pyRstrip '/' "http://example.com/" ++ "/post/" ++ strOfNat p.id))
      ∧ (sitemap_urls wStore "http://example.com/").Nodup
      ∧ (∀ p ∈ wStore.posts, p.is_published = false →
          (pyRstrip '/' "http://example.com/" ++ "/post/" ++ strOfNat p.id)
            ∉ sitemap_urls wStore "http://example.com/") :=
  sitemap_entries wStore "http://example.com/" (by decide) (by decide)

/-- Counterexample to C3 as stated: at a concrete host the robots output is the
full policy text, which contains no `Disallow` directive at all — so it does
not disallow the admin path prefix. -/
theorem robots_no_disallow_cex :
    robots "http://example.com/"
        = "User-agent: *\nAllow: /\n\nSitemap: http://example.com/sitemap.xml\n"
      ∧ specContainsSubstring (robots "http://example.com/") "Disallow" = false := by
  exact ⟨by decide, by decide⟩

/-- C3 (amended): for every request host, the robots artifact allows all paths
(`User-agent: *` / `Allow: /`, with no Disallow directive — see the
counterexample) and points to the sitemap URL qualified by the base URL derived
from the request's host. -/
theorem robots_policy (host_url : String) :
    robots host_url
        = "User-agent: *\nAllow: /\n\nSitemap: " ++ pyRstrip '/' host_url ++ "/sitemap.xml\n"
      ∧ specContainsSubstring (robots host_url) "Allow: /" = true
      ∧ specContainsSubstring (robots host_url)
          ("Sitemap: " ++ pyRstrip '/' host_url ++ "/sitemap.xml") = true := by
  refine ⟨rfl, ?_, ?_⟩
  · have hsub : subIn ("Allow: /" : String).data
        ("User-agent: *\nAllow: /\n\nSitemap: " : String).data = true := by decide
    have h2 := subIn_append_left ("Allow: /" : String).data
      ("User-agent: *\nAllow: /\n\nSitemap: " : String).data
      ((pyRstrip '/' host_url).data ++ ("/sitemap.xml\n" : String).data) hsub
    simp only [specContainsSubstring, robots, String.data_append, List.append_assoc,
      List.cons_append, List.nil_append] at h2 ⊢
    exact h2
  · have key := subIn_factor ("User-agent: *\nAllow: /\n\n" : String).data
      (("Sitemap: " : String).data ++ (pyRstrip '/' host_url).data
        ++ ("/sitemap.xml" : String).data)
      (("\n" : String).data)
    simp only [specContainsSubstring, robots, String.data_append, List.append_assoc,
      List.cons_append, List.nil_append] at key ⊢
    exact key

/-- Witness for C3's amended theorem at a concrete host. -/
theorem robots_policy_witness :
    robots "http://example.com/"
        = "User-agent: *\nAllow: /\n\nSitemap: "
            ++ pyRstrip '/' "http://example.com/" ++ "/sitemap.xml\n"
      ∧ specContainsSubstring (robots "http://example.com/") "Allow: /" = true
      ∧ specContainsSubstring (robots "http://example.com/")
          ("Sitemap: " ++ pyRstrip '/' "http://example.com/" ++ "/sitemap.xml") = true :=
  robots_policy "http://example.com/"

/-- A store with a single published post whose fields are lower-case. -/
def cexSearchStore : Store := ⟨[], [⟨1, "abc", "job", "sss", "ccc", none, "2024", true⟩]⟩

/-- Counterexample to C4 as stated: `search` for the non-empty query "ABC"
returns a post none of whose three fields contains "ABC" as a (literal,
case-sensitive) substring — SQLite `LIKE` matched it case-insensitively. -/
theorem search_substring_claim_cex :
    pyStrip "ABC" ≠ ""
      ∧ (∃ r ∈ search cexSearchStore "ABC",
          ¬ (specContainsSubstring r.title "ABC" = true
              ∨ specContainsSubstring r.summary "ABC" = true
              ∨ specContainsSubstring r.content "ABC" = true)) := by
  decide

/-- C4 (amended): an empty or whitespace-only query yields `[]` for every store
(no store query is issued); a non-empty trimmed query returns exactly the
published posts one of whose title, summary or content matches the SQLite
`LIKE` pattern `%q%` (ASCII-case-insensitive, `%`/`_` in `q` acting as
wildcards), ordered by descending id with no cap. -/
theorem search_characterization (s : Store) (q : String) :
    (pyStrip q = "" → search s q = [])
      ∧ (pyStrip q ≠ "" →
          (∀ r, r ∈ search s q ↔
              r ∈ s.posts ∧ r.is_published = true
                ∧ (likeStr ("%" ++ pyStrip q ++ "%") r.title = true
                    ∨ likeStr ("%" ++ pyStrip q ++ "%") r.summary = true
                    ∨ likeStr ("%" ++ pyStrip q ++ "%") r.content = true))
            ∧ List.Sorted byIdDesc (search s q)) := by
  constructor
  · intro hq
    simp [search, hq]
  · intro hq
    have hred : search s q = sortByIdDesc (s.posts.filter fun x =>
        x.is_published && (likeStr ("%" ++ pyStrip q ++ "%") x.title
          || likeStr ("%" ++ pyStrip q ++ "%") x.summary
          || likeStr ("%" ++ pyStrip q ++ "%") x.content)) := by
      simp [search, hq]
    constructor
    · intro r
      rw [hred, sortByIdDesc, List.mem_insertionSort, List.mem_filter]
      simp only [Bool.and_eq_true, Bool.or_eq_true]
      tauto
    · rw [hred, sortByIdDesc]
      exact List.sorted_insertionSort byIdDesc _

/-- Witness for C4's amended theorem: the small store with the query "Notice"
(and, through the first conjunct, the all-whitespace behaviour). -/
theorem search_characterization_witness :
    (pyStrip "Notice" = "" → search wStore "Notice" = [])
      ∧ (pyStrip "Notice" ≠ "" →
          (∀ r, r ∈ search wStore "Notice" ↔
              r ∈ wStore.posts ∧ r.is_published = true
                ∧ (likeStr ("%" ++ pyStrip "Notice" ++ "%") r.title = true
                    ∨ likeStr ("%" ++ pyStrip "Notice" ++ "%") r.summary = true
                    ∨ likeStr ("%" ++ pyStrip "Notice" ++ "%") r.content = true))
            ∧ List.Sorted byIdDesc (search wStore "Notice")) :=
  search_characterization wStore "Notice"

end App
